import Mathlib

/-!
# Verification of `scripts/export_census_data.py`

A shallow embedding of the Census data-export script. The script performs
three cursor-paginated HTTP fetch sequences (`syncs`, `sources`,
`destinations`), merges the results, and writes one JSON document.

The external world (the HTTP server, `os.path.dirname`, `os.path.exists`,
the clock) is modelled by parameters:

* the server is the finite list of the responses it would return to the
  successive requests of one `fetch_paginated` call (the code issues
  requests strictly in sequence, so its behaviour depends only on this
  sequence); an `Option`-valued result marks the runs in which the loop
  would keep requesting beyond the supplied responses;
* filesystem effects are reified as a list of `FsAction`s instead of being
  performed;
* `datetime.now(...).isoformat()` is a `timestamp` parameter.

Records are opaque (type parameter `α`), exactly as the script passes the
elements of the `data` arrays through verbatim.
-/

namespace Census

/-- Query parameters, opaque key/value pairs (the script never builds any:
every call site passes the default `None`). -/
abbrev Params := List (String × String)

/-- One HTTP response as the script reads it: `response.status_code`,
`response.text`, and the two envelope fields of `response.json()` —
`data.get("data", [])` (`none` = key absent) and `data.get("next")`
(`none` = key absent or JSON null, matching Python's `dict.get`). -/
structure Response (α : Type) where
  status : Nat
  text : String
  data : Option (List α)
  next : Option (String)
  deriving DecidableEq

/-- Python truthiness of the `next_url` value used in `if next_url:` and of
the loop guard `while url:`: `None` is falsy, a string is truthy iff
nonempty. -/
def truthyStr : Option String → Bool
  | none => false
  | some s => !s.isEmpty

/-- The errors `fetch_paginated` can raise (lines 63-68 of the script). -/
inductive FetchError where
  | authFailed
  | forbidden
  | apiError (status : Nat) (body : String)
  deriving DecidableEq

/-- One outbound request: the URL passed to `requests.get` and the query
parameters attached to it (`params=params if page == 1 else None`). -/
structure Request where
  url : String
  params : Option Params
  deriving DecidableEq

/-- Result of one `fetch_paginated` call: the value returned or the
exception raised, together with the requests issued, in order. -/
structure LoopResult (α : Type) where
  result : Except FetchError (List α)
  requests : List Request

/-- `CENSUS_API_BASE` (line 37). -/
def CENSUS_API_BASE : String := "https://app.getcensus.com/api/v1"

/-- The `while url:` loop of `fetch_paginated` (lines 57-86), one
constructor case per iteration consuming the next server response.
State: current `url`, the caller's `params`, the `page` counter, the
accumulator `all_data`, and the requests issued so far. Returns `none`
when the loop would request more pages than the supplied response
sequence contains (i.e. it has not terminated within `pages`). -/
def fetchLoop {α : Type} :
    List (Response α) → String → Option Params → Nat → List α → List Request →
    Option (LoopResult α)
  | [], _, _, _, _, _ => none
  | r :: rest, url, ps, page, acc, reqs =>
    if r.status = 401 then
      some ⟨.error .authFailed, reqs ++ [⟨url, if page = 1 then ps else none⟩]⟩
    else if r.status = 403 then
      some ⟨.error .forbidden, reqs ++ [⟨url, if page = 1 then ps else none⟩]⟩
    else if r.status ≠ 200 then
      some ⟨.error (.apiError r.status r.text),
            reqs ++ [⟨url, if page = 1 then ps else none⟩]⟩
    else if truthyStr r.next then
      fetchLoop rest (r.next.getD "") ps (page + 1) (acc ++ r.data.getD [])
        (reqs ++ [⟨url, if page = 1 then ps else none⟩])
    else
      some ⟨.ok (acc ++ r.data.getD []),
            reqs ++ [⟨url, if page = 1 then ps else none⟩]⟩

/-- `fetch_paginated(endpoint, api_key, params)` (lines 40-86): initial URL
`f"{CENSUS_API_BASE}/{endpoint}"`, page counter starts at 1, accumulator
starts empty. The `api_key` only feeds the constant authorization header,
which is identical on every request and not otherwise observable. -/
def fetch_paginated {α : Type} (endpoint : String) (api_key : String)
    (ps : Option Params) (pages : List (Response α)) : Option (LoopResult α) :=
  let _ := api_key
  fetchLoop pages (CENSUS_API_BASE ++ "/" ++ endpoint) ps 1 [] []

/-- `fetch_syncs` (lines 89-92): `fetch_paginated("syncs", api_key)`. -/
def fetch_syncs {α : Type} (api_key : String) (pages : List (Response α)) :
    Option (LoopResult α) :=
  fetch_paginated "syncs" api_key none pages

/-- `fetch_sources` (lines 95-98). -/
def fetch_sources {α : Type} (api_key : String) (pages : List (Response α)) :
    Option (LoopResult α) :=
  fetch_paginated "sources" api_key none pages

/-- `fetch_destinations` (lines 101-104). -/
def fetch_destinations {α : Type} (api_key : String) (pages : List (Response α)) :
    Option (LoopResult α) :=
  fetch_paginated "destinations" api_key none pages

/-- The `_metadata` block of the output document (lines 143-150). -/
structure Metadata where
  exportedAt : String
  syncCount : Nat
  sourceCount : Nat
  destinationCount : Nat
  connectionCount : Nat
  exportedBy : String
  deriving DecidableEq

/-- The output document (lines 140-151): top-level keys `syncs`,
`connections`, `_metadata`. -/
structure OutputDoc (α : Type) where
  syncs : List α
  connections : List α
  metadata : Metadata
  deriving DecidableEq

/-- A filesystem side effect of the script (lines 153-161): `os.makedirs`
or writing the serialized document. -/
inductive FsAction (α : Type) where
  | mkdir (dir : String)
  | write (path : String) (doc : OutputDoc α)
  deriving DecidableEq

/-- The response sequences the server would feed to the three fetch calls
of one export run. -/
structure ExportInput (α : Type) where
  syncPages : List (Response α)
  sourcePages : List (Response α)
  destPages : List (Response α)
  deriving DecidableEq

/-- Outcome of `export_census_data`: the document built (or the exception
propagated), the filesystem actions performed, and every request issued. -/
structure RunOutcome (α : Type) where
  result : Except FetchError (OutputDoc α)
  fsActions : List (FsAction α)
  requests : List Request

/-- `export_census_data(api_key, output_path)` (lines 107-173): fetch
syncs, then sources, then destinations (an exception from any fetch
propagates at once, before any filesystem access); merge
`connections = sources + destinations`; build the document; create the
output directory if its name is truthy and it does not exist; write the
file. `dirname` models `os.path.dirname`, `pathExists` models
`os.path.exists`, `timestamp` models `datetime.now(timezone.utc).isoformat()`. -/
def export_census_data {α : Type} (api_key : String) (output_path : String)
    (timestamp : String) (dirname : String → String)
    (pathExists : String → Bool) (inp : ExportInput α) :
    Option (RunOutcome α) :=
  match fetch_syncs api_key inp.syncPages with
  | none => none
  | some oSyncs =>
    match oSyncs.result with
    | .error e => some ⟨.error e, [], oSyncs.requests⟩
    | .ok syncs =>
      match fetch_sources api_key inp.sourcePages with
      | none => none
      | some oSrc =>
        match oSrc.result with
        | .error e => some ⟨.error e, [], oSyncs.requests ++ oSrc.requests⟩
        | .ok sources =>
          match fetch_destinations api_key inp.destPages with
          | none => none
          | some oDst =>
            match oDst.result with
            | .error e =>
              some ⟨.error e, [], oSyncs.requests ++ oSrc.requests ++ oDst.requests⟩
            | .ok destinations =>
              let connections := sources ++ destinations
              let doc : OutputDoc α :=
                { syncs := syncs
                  connections := connections
                  metadata :=
                    { exportedAt := timestamp
                      syncCount := syncs.length
                      sourceCount := sources.length
                      destinationCount := destinations.length
                      connectionCount := connections.length
                      exportedBy := "export_census_data.py" } }
              let output_dir := dirname output_path
              some ⟨.ok doc,
                    (if output_dir ≠ "" ∧ pathExists output_dir = false then
                      [FsAction.mkdir output_dir]
                    else []) ++ [FsAction.write output_path doc],
                    oSyncs.requests ++ oSrc.requests ++ oDst.requests⟩

/-- Outcome of `main`: the process exit code (0 on success), whether the
missing-key help message was printed, and the effects performed. -/
structure MainOutcome (α : Type) where
  exitCode : Nat
  helpPrinted : Bool
  fsActions : List (FsAction α)
  requests : List Request
  deriving DecidableEq

/-- `main()` (lines 176-219). `argparse` resolves `args.api_key` to the
`--api-key` flag if present, else `os.environ.get("CENSUS_API_KEY")`
(the flag's `default=`), else `None`; `args.output` defaults to
`"data/census.json"`. `if not args.api_key:` (falsy: `None` or the empty
string) prints the help message and exits with code 1 before any fetch or
filesystem access; otherwise the export runs, an exception exits with
code 1, success (implicitly) exits with code 0. -/
def main {α : Type} (apiKeyFlag envKey outputFlag : Option String)
    (timestamp : String) (dirname : String → String)
    (pathExists : String → Bool) (inp : ExportInput α) :
    Option (MainOutcome α) :=
  let api_key : Option String :=
    match apiKeyFlag with
    | some s => some s
    | none => envKey
  let output : String := outputFlag.getD "data/census.json"
  match api_key with
  | none => some ⟨1, true, [], []⟩
  | some k =>
    if k = "" then
      some ⟨1, true, [], []⟩
    else
      match export_census_data k output timestamp dirname pathExists inp with
      | none => none
      | some out =>
        match out.result with
        | .error _ => some ⟨1, false, out.fsActions, out.requests⟩
        | .ok _ => some ⟨0, false, out.fsActions, out.requests⟩

/-! ## Step lemmas for the fetch loop -/

theorem truthyStr_true_iff (o : Option String) :
    truthyStr o = true ↔ ∃ s, o = some s ∧ s ≠ "" := by
  cases o with
  | none => simp [truthyStr]
  | some s =>
    simp only [truthyStr, Option.some.injEq, Bool.not_eq_true', exists_eq_left', ne_eq]
    rw [← String.isEmpty_iff]
    simp

theorem fetchLoop_cons {α : Type} (r : Response α) (rest : List (Response α))
    (url : String) (ps : Option Params) (page : Nat) (acc : List α)
    (reqs : List Request) :
    fetchLoop (r :: rest) url ps page acc reqs =
      if r.status = 401 then
        some ⟨.error .authFailed, reqs ++ [⟨url, if page = 1 then ps else none⟩]⟩
      else if r.status = 403 then
        some ⟨.error .forbidden, reqs ++ [⟨url, if page = 1 then ps else none⟩]⟩
      else if r.status ≠ 200 then
        some ⟨.error (.apiError r.status r.text),
              reqs ++ [⟨url, if page = 1 then ps else none⟩]⟩
      else if truthyStr r.next then
        fetchLoop rest (r.next.getD "") ps (page + 1) (acc ++ r.data.getD [])
          (reqs ++ [⟨url, if page = 1 then ps else none⟩])
      else
        some ⟨.ok (acc ++ r.data.getD []),
              reqs ++ [⟨url, if page = 1 then ps else none⟩]⟩ := rfl

theorem fetchLoop_cons_401 {α : Type} {r : Response α} (rest : List (Response α))
    (url : String) (ps : Option Params) (page : Nat) (acc : List α)
    (reqs : List Request) (h : r.status = 401) :
    fetchLoop (r :: rest) url ps page acc reqs =
      some ⟨.error .authFailed, reqs ++ [⟨url, if page = 1 then ps else none⟩]⟩ := by
  rw [fetchLoop_cons]; simp [h]

theorem fetchLoop_cons_403 {α : Type} {r : Response α} (rest : List (Response α))
    (url : String) (ps : Option Params) (page : Nat) (acc : List α)
    (reqs : List Request) (h : r.status = 403) :
    fetchLoop (r :: rest) url ps page acc reqs =
      some ⟨.error .forbidden, reqs ++ [⟨url, if page = 1 then ps else none⟩]⟩ := by
  rw [fetchLoop_cons]; simp [h]

theorem fetchLoop_cons_other {α : Type} {r : Response α} (rest : List (Response α))
    (url : String) (ps : Option Params) (page : Nat) (acc : List α)
    (reqs : List Request) (h401 : r.status ≠ 401) (h403 : r.status ≠ 403)
    (h200 : r.status ≠ 200) :
    fetchLoop (r :: rest) url ps page acc reqs =
      some ⟨.error (.apiError r.status r.text),
            reqs ++ [⟨url, if page = 1 then ps else none⟩]⟩ := by
  rw [fetchLoop_cons]; simp [h401, h403, h200]

theorem fetchLoop_cons_200_truthy {α : Type} {r : Response α}
    (rest : List (Response α)) (url : String) (ps : Option Params) (page : Nat)
    (acc : List α) (reqs : List Request) (h : r.status = 200)
    (ht : truthyStr r.next = true) :
    fetchLoop (r :: rest) url ps page acc reqs =
      fetchLoop rest (r.next.getD "") ps (page + 1) (acc ++ r.data.getD [])
        (reqs ++ [⟨url, if page = 1 then ps else none⟩]) := by
  rw [fetchLoop_cons]; simp [h, ht]

theorem fetchLoop_cons_200_done {α : Type} {r : Response α}
    (rest : List (Response α)) (url : String) (ps : Option Params) (page : Nat)
    (acc : List α) (reqs : List Request) (h : r.status = 200)
    (ht : truthyStr r.next = false) :
    fetchLoop (r :: rest) url ps page acc reqs =
      some ⟨.ok (acc ++ r.data.getD []),
            reqs ++ [⟨url, if page = 1 then ps else none⟩]⟩ := by
  rw [fetchLoop_cons]; simp [h, ht]

/-- Core lemma for the happy path: all pages 200, every page but the last
has a truthy `next`, the last page a falsy one. The loop returns the
accumulator followed by the concatenation of the per-page `data` arrays,
having issued one request per page. -/
theorem fetchLoop_good {α : Type} (pages : List (Response α)) :
    ∀ (url : String) (ps : Option Params) (page : Nat) (acc : List α)
      (reqs : List Request),
    pages ≠ [] →
    (∀ r ∈ pages, r.status = 200) →
    (∀ r ∈ pages.dropLast, truthyStr r.next = true) →
    (∀ p, pages.getLast? = some p → truthyStr p.next = false) →
    ∃ out, fetchLoop pages url ps page acc reqs = some out ∧
      out.result = .ok (acc ++ (pages.map (fun r => r.data.getD [])).flatten) ∧
      out.requests.length = reqs.length + pages.length := by
  induction pages with
  | nil => intro url ps page acc reqs hne; exact absurd rfl hne
  | cons r rest ih =>
    intro url ps page acc reqs _ h200 hmid hlast
    have hr : r.status = 200 := h200 r (by simp)
    cases rest with
    | nil =>
      have hlastr : truthyStr r.next = false := hlast r (by simp)
      exact ⟨⟨.ok (acc ++ r.data.getD []),
              reqs ++ [⟨url, if page = 1 then ps else none⟩]⟩,
             fetchLoop_cons_200_done _ _ _ _ _ _ hr hlastr, by simp, by simp⟩
    | cons s t =>
      have hrnext : truthyStr r.next = true := hmid r (by simp)
      obtain ⟨out, hout, hres, hlen⟩ :=
        ih (r.next.getD "") ps (page + 1) (acc ++ r.data.getD [])
          (reqs ++ [⟨url, if page = 1 then ps else none⟩]) (by simp)
          (fun q hq => h200 q (by simp [hq]))
          (fun q hq => hmid q (by rw [List.dropLast_cons₂]; exact List.mem_cons_of_mem r hq))
          (fun p hp => hlast p (by rw [List.getLast?_cons_cons]; exact hp))
      refine ⟨out, ?_, ?_, ?_⟩
      · rw [fetchLoop_cons_200_truthy _ _ _ _ _ _ hr hrnext]; exact hout
      · rw [hres]; simp
      · rw [hlen]; simp; omega

/-- Core lemma for the 401 abort: if every response before the 401 one is
a 200 page with a truthy `next`, the loop raises the authentication error
upon the 401 response, having issued exactly one request per consumed
page and none for the responses after it. -/
theorem fetchLoop_auth {α : Type} (pre : List (Response α)) :
    ∀ (r : Response α) (rest : List (Response α)) (url : String)
      (ps : Option Params) (page : Nat) (acc : List α) (reqs : List Request),
    (∀ p ∈ pre, p.status = 200 ∧ truthyStr p.next = true) →
    r.status = 401 →
    ∃ out, fetchLoop (pre ++ r :: rest) url ps page acc reqs = some out ∧
      out.result = .error .authFailed ∧
      out.requests.length = reqs.length + (pre.length + 1) := by
  induction pre with
  | nil =>
    intro r rest url ps page acc reqs _ hr
    exact ⟨_, fetchLoop_cons_401 _ _ _ _ _ _ hr, rfl, by simp⟩
  | cons p pre ih =>
    intro r rest url ps page acc reqs hpre hr
    have hp := hpre p (by simp)
    obtain ⟨out, hout, hres, hlen⟩ :=
      ih r rest (p.next.getD "") ps (page + 1) (acc ++ p.data.getD [])
        (reqs ++ [⟨url, if page = 1 then ps else none⟩])
        (fun q hq => hpre q (by simp [hq])) hr
    refine ⟨out, ?_, hres, ?_⟩
    · rw [List.cons_append, fetchLoop_cons_200_truthy _ _ _ _ _ _ hp.1 hp.2]
      exact hout
    · rw [hlen]; simp; omega

/-- Core lemma for the status taxonomy: if every response before a
non-200 one is a 200 page with a truthy `next` (so the loop reaches it),
the loop stops at the non-200 response with the error the status maps to
— 401 to the authentication failure, 403 to the permission failure, any
other status to the generic API error carrying the status code and the
response body — having issued one request per consumed page. -/
theorem fetchLoop_non200 {α : Type} (pre : List (Response α)) :
    ∀ (r : Response α) (rest : List (Response α)) (url : String)
      (ps : Option Params) (page : Nat) (acc : List α) (reqs : List Request),
    (∀ p ∈ pre, p.status = 200 ∧ truthyStr p.next = true) →
    r.status ≠ 200 →
    ∃ out, fetchLoop (pre ++ r :: rest) url ps page acc reqs = some out ∧
      out.result = .error
        (if r.status = 401 then .authFailed
         else if r.status = 403 then .forbidden
         else .apiError r.status r.text) ∧
      out.requests.length = reqs.length + (pre.length + 1) := by
  induction pre with
  | nil =>
    intro r rest url ps page acc reqs _ h200
    by_cases h401 : r.status = 401
    · exact ⟨_, fetchLoop_cons_401 _ _ _ _ _ _ h401, by simp [h401], by simp⟩
    · by_cases h403 : r.status = 403
      · exact ⟨_, fetchLoop_cons_403 _ _ _ _ _ _ h403, by simp [h401, h403], by simp⟩
      · exact ⟨_, fetchLoop_cons_other _ _ _ _ _ _ h401 h403 h200,
               by simp [h401, h403], by simp⟩
  | cons p pre ih =>
    intro r rest url ps page acc reqs hpre h200
    have hp := hpre p (by simp)
    obtain ⟨out, hout, hres, hlen⟩ :=
      ih r rest (p.next.getD "") ps (page + 1) (acc ++ p.data.getD [])
        (reqs ++ [⟨url, if page = 1 then ps else none⟩])
        (fun q hq => hpre q (by simp [hq])) h200
    refine ⟨out, ?_, hres, ?_⟩
    · rw [List.cons_append, fetchLoop_cons_200_truthy _ _ _ _ _ _ hp.1 hp.2]
      exact hout
    · rw [hlen]; simp; omega

/-- Core lemma for termination: on an all-200 response sequence, the loop
stops within the sequence exactly when some response has a falsy `next`. -/
theorem fetchLoop_isSome_iff {α : Type} (pages : List (Response α)) :
    ∀ (url : String) (ps : Option Params) (page : Nat) (acc : List α)
      (reqs : List Request),
    (∀ r ∈ pages, r.status = 200) →
    ((fetchLoop pages url ps page acc reqs).isSome = true ↔
      ∃ r ∈ pages, truthyStr r.next = false) := by
  induction pages with
  | nil => intro url ps page acc reqs _; simp [fetchLoop]
  | cons r rest ih =>
    intro url ps page acc reqs h200
    have hr := h200 r (by simp)
    cases ht : truthyStr r.next with
    | true =>
      rw [fetchLoop_cons_200_truthy _ _ _ _ _ _ hr ht,
        ih _ _ _ _ _ (fun q hq => h200 q (by simp [hq]))]
      simp [ht]
    | false =>
      rw [fetchLoop_cons_200_done _ _ _ _ _ _ hr ht]
      exact iff_of_true rfl ⟨r, by simp, ht⟩

/-- Core lemma for the status taxonomy: on an all-200 sequence the loop
never produces an error. -/
theorem fetchLoop_all200_ok {α : Type} (pages : List (Response α)) :
    ∀ (url : String) (ps : Option Params) (page : Nat) (acc : List α)
      (reqs : List Request) (out : LoopResult α),
    (∀ r ∈ pages, r.status = 200) →
    fetchLoop pages url ps page acc reqs = some out →
    ∃ l, out.result = .ok l := by
  induction pages with
  | nil => intro url ps page acc reqs out _ h; simp [fetchLoop] at h
  | cons r rest ih =>
    intro url ps page acc reqs out h200 h
    have hr := h200 r (by simp)
    cases ht : truthyStr r.next with
    | true =>
      rw [fetchLoop_cons_200_truthy _ _ _ _ _ _ hr ht] at h
      exact ih _ _ _ _ _ _ (fun q hq => h200 q (by simp [hq])) h
    | false =>
      rw [fetchLoop_cons_200_done _ _ _ _ _ _ hr ht] at h
      obtain rfl := Option.some.inj h
      exact ⟨_, rfl⟩

/-- Core lemma for the request trail: past an initial `reqs` prefix, the
loop's first request targets the current `url` carrying the caller's
params exactly when the page counter is 1, and every later request
carries no params and targets verbatim the `next` URL of the response
that preceded it. -/
theorem fetchLoop_requests_spec {α : Type} (pages : List (Response α)) :
    ∀ (url : String) (ps : Option Params) (page : Nat) (acc : List α)
      (reqs : List Request) (out : LoopResult α),
    1 ≤ page →
    fetchLoop pages url ps page acc reqs = some out →
    ∃ tail, out.requests = reqs ++ tail ∧
      tail.head? = some ⟨url, if page = 1 then ps else none⟩ ∧
      ∀ i req, tail[i + 1]? = some req →
        req.params = none ∧ ∃ p, pages[i]? = some p ∧ p.next = some req.url := by
  induction pages with
  | nil => intro url ps page acc reqs out _ h; simp [fetchLoop] at h
  | cons r rest ih =>
    intro url ps page acc reqs out hpage h
    by_cases h401 : r.status = 401
    · rw [fetchLoop_cons_401 _ _ _ _ _ _ h401] at h
      obtain rfl := Option.some.inj h
      exact ⟨[⟨url, if page = 1 then ps else none⟩], rfl, rfl,
             fun i req hreq => by simp at hreq⟩
    · by_cases h403 : r.status = 403
      · rw [fetchLoop_cons_403 _ _ _ _ _ _ h403] at h
        obtain rfl := Option.some.inj h
        exact ⟨[⟨url, if page = 1 then ps else none⟩], rfl, rfl,
               fun i req hreq => by simp at hreq⟩
      · by_cases h200 : r.status = 200
        · cases ht : truthyStr r.next with
          | false =>
            rw [fetchLoop_cons_200_done _ _ _ _ _ _ h200 ht] at h
            obtain rfl := Option.some.inj h
            exact ⟨[⟨url, if page = 1 then ps else none⟩], rfl, rfl,
                   fun i req hreq => by simp at hreq⟩
          | true =>
            rw [fetchLoop_cons_200_truthy _ _ _ _ _ _ h200 ht] at h
            obtain ⟨tail, htail, hhead, hrec⟩ := ih _ _ _ _ _ _ (by omega) h
            obtain ⟨s, hs, hsne⟩ := (truthyStr_true_iff r.next).mp ht
            refine ⟨⟨url, if page = 1 then ps else none⟩ :: tail, ?_, rfl, ?_⟩
            · rw [htail]; simp
            · intro i req hreq
              rw [List.getElem?_cons_succ] at hreq
              cases i with
              | zero =>
                rw [← List.head?_eq_getElem?, hhead] at hreq
                obtain rfl := Option.some.inj hreq
                have hne1 : ¬ page + 1 = 1 := by omega
                refine ⟨by simp [hne1], r, by simp, ?_⟩
                simp only [hs, Option.getD_some]
              | succ j =>
                obtain ⟨hparams, p, hp, hnext⟩ := hrec j req hreq
                exact ⟨hparams, p, by simpa using hp, hnext⟩
        · rw [fetchLoop_cons_other _ _ _ _ _ _ h401 h403 h200] at h
          obtain rfl := Option.some.inj h
          exact ⟨[⟨url, if page = 1 then ps else none⟩], rfl, rfl,
                 fun i req hreq => by simp at hreq⟩

/-! ## Concrete inputs used by the witnesses -/

/-- A 200 page with two records and a truthy `next` URL. -/
def pageOk1 : Response Nat :=
  ⟨200, "", some [1, 2], some "https://app.getcensus.com/api/v1/syncs?page=2"⟩

/-- A final 200 page with one record and no `next`. -/
def pageOk2 : Response Nat := ⟨200, "", some [3], none⟩

/-- A 401 page. -/
def page401 : Response Nat := ⟨401, "unauthorized", some [9], some "next"⟩

/-- A 403 page. -/
def page403 : Response Nat := ⟨403, "forbidden", some [4], some "next"⟩

/-- A 500 page. -/
def page500 : Response Nat := ⟨500, "server error", none, some "next"⟩

/-- A 200 page whose body has no `data` key. -/
def pageNoData : Response Nat := ⟨200, "", none, some "u2"⟩

/-! ## Claim theorems -/

/-- C1: for an endpoint whose server returns N pages, all with status 200,
every page before the last with a truthy `next` and the last with a falsy
one, `fetch_paginated` returns exactly the concatenation of the per-page
`data` arrays in original per-page order — hence c1+...+cN records — and
issues exactly one request per page, in page order. -/
theorem fetch_paginated_happy_path {α : Type} (endpoint api_key : String)
    (ps : Option Params) (pages : List (Response α))
    (hne : pages ≠ [])
    (h200 : ∀ r ∈ pages, r.status = 200)
    (hmid : ∀ r ∈ pages.dropLast, truthyStr r.next = true)
    (hlast : ∀ p, pages.getLast? = some p → truthyStr p.next = false) :
    ∃ out, fetch_paginated endpoint api_key ps pages = some out ∧
      out.result = .ok ((pages.map (fun r => r.data.getD [])).flatten) ∧
      ((pages.map (fun r => r.data.getD [])).flatten).length =
        (pages.map (fun r => (r.data.getD []).length)).sum ∧
      out.requests.length = pages.length := by
  obtain ⟨out, hout, hres, hlen⟩ :=
    fetchLoop_good pages (CENSUS_API_BASE ++ "/" ++ endpoint) ps 1 [] []
      hne h200 hmid hlast
  refine ⟨out, hout, by simpa using hres, ?_, by simpa using hlen⟩
  simp only [List.length_flatten, List.map_map]
  rfl

/-- Witness for C1: a two-page run with data arrays `[1, 2]` and `[3]`. -/
theorem fetch_paginated_happy_path_witness :
    ([pageOk1, pageOk2] ≠ ([] : List (Response Nat))) ∧
    (∀ r ∈ [pageOk1, pageOk2], r.status = 200) ∧
    ∃ out, fetch_paginated "syncs" "key" none [pageOk1, pageOk2] = some out ∧
      out.result = .ok (([pageOk1, pageOk2].map (fun r => r.data.getD [])).flatten) ∧
      (([pageOk1, pageOk2].map (fun r => r.data.getD [])).flatten).length =
        ([pageOk1, pageOk2].map (fun r => (r.data.getD []).length)).sum ∧
      out.requests.length = [pageOk1, pageOk2].length :=
  ⟨by decide, by decide,
   fetch_paginated_happy_path "syncs" "key" none [pageOk1, pageOk2]
     (by decide) (by decide) (by decide)
     (fun p hp => by
       obtain rfl : pageOk2 = p := Option.some.inj hp
       rfl)⟩

/-- C4: if a page response has status 401 (every earlier response being a
200 page with a truthy `next`, so that the loop reaches it), the fetch
aborts at once with the authentication-specific error: the result is the
`authFailed` error rather than any list of records, and the request for
the 401 page is the last one issued — none of the later responses is ever
requested. -/
theorem fetch_paginated_aborts_on_401 {α : Type} (endpoint api_key : String)
    (ps : Option Params) (pre : List (Response α)) (r : Response α)
    (rest : List (Response α))
    (hpre : ∀ p ∈ pre, p.status = 200 ∧ truthyStr p.next = true)
    (hr : r.status = 401) :
    ∃ out, fetch_paginated endpoint api_key ps (pre ++ r :: rest) = some out ∧
      out.result = .error .authFailed ∧
      out.requests.length = pre.length + 1 := by
  obtain ⟨out, hout, hres, hlen⟩ :=
    fetchLoop_auth pre r rest (CENSUS_API_BASE ++ "/" ++ endpoint) ps 1 [] [] hpre hr
  exact ⟨out, hout, hres, by simpa using hlen⟩

/-- Witness for C4: one good page, then a 401, then an unrequested page. -/
theorem fetch_paginated_aborts_on_401_witness :
    (∀ p ∈ [pageOk1], p.status = 200 ∧ truthyStr p.next = true) ∧
    ∃ out, fetch_paginated "syncs" "key" none ([pageOk1] ++ page401 :: [pageOk2]) = some out ∧
      out.result = .error .authFailed ∧
      out.requests.length = [pageOk1].length + 1 :=
  ⟨by decide,
   fetch_paginated_aborts_on_401 "syncs" "key" none [pageOk1] page401 [pageOk2]
     (by decide) (by decide)⟩

/-- C6: on an all-200 response sequence the page loop terminates within
the sequence exactly when some response's `next` field is absent, null or
empty (`truthyStr` false); in particular it terminates whenever the final
page has such a `next`, and for no finite all-truthy sequence does it
stop — there is no page-count bound. -/
theorem fetch_paginated_terminates_iff {α : Type} (endpoint api_key : String)
    (ps : Option Params) (pages : List (Response α))
    (h200 : ∀ r ∈ pages, r.status = 200) :
    ((fetch_paginated endpoint api_key ps pages).isSome = true ↔
      ∃ r ∈ pages, truthyStr r.next = false) :=
  fetchLoop_isSome_iff pages (CENSUS_API_BASE ++ "/" ++ endpoint) ps 1 [] [] h200

/-- Witness for C6: an all-200 sequence whose final page ends pagination. -/
theorem fetch_paginated_terminates_iff_witness :
    (∀ r ∈ [pageOk1, pageOk2], r.status = 200) ∧
    ((fetch_paginated "syncs" "key" none [pageOk1, pageOk2]).isSome = true ↔
      ∃ r ∈ [pageOk1, pageOk2], truthyStr r.next = false) :=
  ⟨by decide,
   fetch_paginated_terminates_iff "syncs" "key" none [pageOk1, pageOk2] (by decide)⟩

/-- C7: the status taxonomy of a page response, at any position the loop
reaches (every response before it being a 200 page with a truthy `next`).
A 401 response raises the authentication failure, a 403 the permission
failure, any other non-200 status the generic API error carrying the
numeric status code and the raw response body text — each on the page at
which it occurs, having issued one request per consumed page and none
beyond — while a sequence of 200 responses raises none of these. -/
theorem fetch_paginated_status_taxonomy {α : Type} (endpoint api_key : String)
    (ps : Option Params) (pre : List (Response α)) (r : Response α)
    (rest pages : List (Response α))
    (hpre : ∀ p ∈ pre, p.status = 200 ∧ truthyStr p.next = true) :
    (r.status = 401 →
      ∃ out, fetch_paginated endpoint api_key ps (pre ++ r :: rest) = some out ∧
        out.result = .error .authFailed ∧
        out.requests.length = pre.length + 1) ∧
    (r.status = 403 →
      ∃ out, fetch_paginated endpoint api_key ps (pre ++ r :: rest) = some out ∧
        out.result = .error .forbidden ∧
        out.requests.length = pre.length + 1) ∧
    (r.status ≠ 401 → r.status ≠ 403 → r.status ≠ 200 →
      ∃ out, fetch_paginated endpoint api_key ps (pre ++ r :: rest) = some out ∧
        out.result = .error (.apiError r.status r.text) ∧
        out.requests.length = pre.length + 1) ∧
    ((∀ p ∈ pages, p.status = 200) →
      ∀ out, fetch_paginated endpoint api_key ps pages = some out →
        ∀ e, out.result ≠ .error e) := by
  refine ⟨fun h => ?_, fun h => ?_, fun h401 h403 h200 => ?_,
          fun hall out hout e hcon => ?_⟩
  · obtain ⟨out, hout, hres, hlen⟩ :=
      fetchLoop_non200 pre r rest (CENSUS_API_BASE ++ "/" ++ endpoint) ps 1 [] []
        hpre (by simp [h])
    exact ⟨out, hout, by simpa [h] using hres, by simpa using hlen⟩
  · obtain ⟨out, hout, hres, hlen⟩ :=
      fetchLoop_non200 pre r rest (CENSUS_API_BASE ++ "/" ++ endpoint) ps 1 [] []
        hpre (by simp [h])
    exact ⟨out, hout, by simpa [h] using hres, by simpa using hlen⟩
  · obtain ⟨out, hout, hres, hlen⟩ :=
      fetchLoop_non200 pre r rest (CENSUS_API_BASE ++ "/" ++ endpoint) ps 1 [] []
        hpre h200
    exact ⟨out, hout, by simpa [h401, h403] using hres, by simpa using hlen⟩
  · obtain ⟨l, hl⟩ :=
      fetchLoop_all200_ok pages (CENSUS_API_BASE ++ "/" ++ endpoint) ps 1 [] [] out hall hout
    rw [hl] at hcon
    cases hcon

/-- Witness for C7: after one good page, a 401, a 403 and a 500 response
are each reported as their own error; an all-200 run raises nothing. -/
theorem fetch_paginated_status_taxonomy_witness :
    (∀ p ∈ [pageOk1], p.status = 200 ∧ truthyStr p.next = true) ∧
    (∃ out, fetch_paginated "syncs" "key" none ([pageOk1] ++ page401 :: [pageOk2]) =
        some out ∧
      out.result = .error .authFailed ∧
      out.requests.length = [pageOk1].length + 1) ∧
    (∃ out, fetch_paginated "syncs" "key" none ([pageOk1] ++ page403 :: [pageOk2]) =
        some out ∧
      out.result = .error .forbidden ∧
      out.requests.length = [pageOk1].length + 1) ∧
    (∃ out, fetch_paginated "syncs" "key" none ([pageOk1] ++ page500 :: [pageOk2]) =
        some out ∧
      out.result = .error (.apiError page500.status page500.text) ∧
      out.requests.length = [pageOk1].length + 1) ∧
    (∀ out, fetch_paginated "syncs" "key" none [pageOk1, pageOk2] = some out →
      ∀ e, out.result ≠ .error e) :=
  ⟨by decide,
   (fetch_paginated_status_taxonomy "syncs" "key" none [pageOk1] page401 [pageOk2] []
      (by decide)).1 (by decide),
   (fetch_paginated_status_taxonomy "syncs" "key" none [pageOk1] page403 [pageOk2] []
      (by decide)).2.1 (by decide),
   (fetch_paginated_status_taxonomy "syncs" "key" none [pageOk1] page500 [pageOk2] []
      (by decide)).2.2.1 (by decide) (by decide) (by decide),
   (fetch_paginated_status_taxonomy "syncs" "key" none [pageOk1] page500 []
      [pageOk1, pageOk2] (by decide)).2.2.2 (by decide)⟩

/-- C8: the caller's query parameters are attached exactly to the initial
request, whose URL is the base URL plus the endpoint name; every
subsequent request carries no parameters and targets verbatim the `next`
URL of the response that preceded it. -/
theorem fetch_paginated_params_first_only {α : Type} (endpoint api_key : String)
    (ps : Option Params) (pages : List (Response α)) (out : LoopResult α)
    (h : fetch_paginated endpoint api_key ps pages = some out) :
    out.requests.head? = some ⟨CENSUS_API_BASE ++ "/" ++ endpoint, ps⟩ ∧
    ∀ i req, out.requests[i + 1]? = some req →
      req.params = none ∧ ∃ p, pages[i]? = some p ∧ p.next = some req.url := by
  obtain ⟨tail, htail, hhead, hrec⟩ :=
    fetchLoop_requests_spec pages (CENSUS_API_BASE ++ "/" ++ endpoint) ps 1 [] [] out
      (le_refl 1) h
  rw [htail, List.nil_append]
  exact ⟨by simpa using hhead, hrec⟩

/-- Witness for C8: a two-page fetch with explicit query parameters. -/
theorem fetch_paginated_params_first_only_witness :
    (fetch_paginated "syncs" "key" (some [("limit", "100")]) [pageOk1, pageOk2] =
      some ⟨.ok [1, 2, 3],
            [⟨CENSUS_API_BASE ++ "/" ++ "syncs", some [("limit", "100")]⟩,
             ⟨"https://app.getcensus.com/api/v1/syncs?page=2", none⟩]⟩) ∧
    ((⟨.ok [1, 2, 3],
        [⟨CENSUS_API_BASE ++ "/" ++ "syncs", some [("limit", "100")]⟩,
         ⟨"https://app.getcensus.com/api/v1/syncs?page=2", none⟩]⟩ :
        LoopResult Nat).requests.head? =
      some ⟨CENSUS_API_BASE ++ "/" ++ "syncs", some [("limit", "100")]⟩ ∧
     ∀ i req,
       (⟨.ok [1, 2, 3],
          [⟨CENSUS_API_BASE ++ "/" ++ "syncs", some [("limit", "100")]⟩,
           ⟨"https://app.getcensus.com/api/v1/syncs?page=2", none⟩]⟩ :
          LoopResult Nat).requests[i + 1]? = some req →
       req.params = none ∧
         ∃ p, [pageOk1, pageOk2][i]? = some p ∧ p.next = some req.url) :=
  ⟨rfl,
   fetch_paginated_params_first_only "syncs" "key" (some [("limit", "100")])
     [pageOk1, pageOk2] _ rfl⟩

/-- C10: a 200 page whose JSON body lacks the `data` key contributes zero
records and raises no error: the accumulated list is unchanged by that
page, and the loop continues or stops solely according to the page's
`next` field. -/
theorem fetch_missing_data_key_contributes_nothing {α : Type} (r : Response α)
    (rest : List (Response α)) (url : String) (ps : Option Params) (page : Nat)
    (acc : List α) (reqs : List Request)
    (h200 : r.status = 200) (hdata : r.data = none) :
    fetchLoop (r :: rest) url ps page acc reqs =
      if truthyStr r.next then
        fetchLoop rest (r.next.getD "") ps (page + 1) acc
          (reqs ++ [⟨url, if page = 1 then ps else none⟩])
      else
        some ⟨.ok acc, reqs ++ [⟨url, if page = 1 then ps else none⟩]⟩ := by
  cases ht : truthyStr r.next with
  | true => rw [fetchLoop_cons_200_truthy _ _ _ _ _ _ h200 ht]; simp [hdata, ht]
  | false => rw [fetchLoop_cons_200_done _ _ _ _ _ _ h200 ht]; simp [hdata, ht]

/-- Witness for C10: a data-less 200 page followed by a final page. -/
theorem fetch_missing_data_key_contributes_nothing_witness :
    (pageNoData.status = 200) ∧ (pageNoData.data = none) ∧
    fetchLoop [pageNoData, pageOk2]
        (CENSUS_API_BASE ++ "/" ++ "syncs") none 1 [] [] =
      if truthyStr pageNoData.next then
        fetchLoop [pageOk2] (pageNoData.next.getD "") none (1 + 1) []
          ([] ++ [⟨CENSUS_API_BASE ++ "/" ++ "syncs", if 1 = 1 then none else none⟩])
      else
        some ⟨.ok [],
              [] ++ [⟨CENSUS_API_BASE ++ "/" ++ "syncs", if 1 = 1 then none else none⟩]⟩ :=
  ⟨rfl, rfl,
   fetch_missing_data_key_contributes_nothing pageNoData [pageOk2]
     (CENSUS_API_BASE ++ "/" ++ "syncs") none 1 [] [] rfl rfl⟩

/-! ## Characterization of `export_census_data` -/

theorem export_eq_syncs_error {α : Type} {api_key output_path timestamp : String}
    {dirname : String → String} {pathExists : String → Bool} {inp : ExportInput α}
    {oSy : LoopResult α} {e : FetchError}
    (hSy : fetch_syncs api_key inp.syncPages = some oSy)
    (hSyr : oSy.result = .error e) :
    export_census_data api_key output_path timestamp dirname pathExists inp =
      some ⟨.error e, [], oSy.requests⟩ := by
  simp only [export_census_data, hSy, hSyr]

theorem export_eq_sources_error {α : Type} {api_key output_path timestamp : String}
    {dirname : String → String} {pathExists : String → Bool} {inp : ExportInput α}
    {oSy oSr : LoopResult α} {syncs : List α} {e : FetchError}
    (hSy : fetch_syncs api_key inp.syncPages = some oSy)
    (hSyr : oSy.result = .ok syncs)
    (hSr : fetch_sources api_key inp.sourcePages = some oSr)
    (hSrr : oSr.result = .error e) :
    export_census_data api_key output_path timestamp dirname pathExists inp =
      some ⟨.error e, [], oSy.requests ++ oSr.requests⟩ := by
  simp only [export_census_data, hSy, hSyr, hSr, hSrr]

theorem export_eq_dest_error {α : Type} {api_key output_path timestamp : String}
    {dirname : String → String} {pathExists : String → Bool} {inp : ExportInput α}
    {oSy oSr oDs : LoopResult α} {syncs sources : List α} {e : FetchError}
    (hSy : fetch_syncs api_key inp.syncPages = some oSy)
    (hSyr : oSy.result = .ok syncs)
    (hSr : fetch_sources api_key inp.sourcePages = some oSr)
    (hSrr : oSr.result = .ok sources)
    (hDs : fetch_destinations api_key inp.destPages = some oDs)
    (hDsr : oDs.result = .error e) :
    export_census_data api_key output_path timestamp dirname pathExists inp =
      some ⟨.error e, [], oSy.requests ++ oSr.requests ++ oDs.requests⟩ := by
  simp only [export_census_data, hSy, hSyr, hSr, hSrr, hDs, hDsr]

theorem export_eq_ok {α : Type} {api_key output_path timestamp : String}
    {dirname : String → String} {pathExists : String → Bool} {inp : ExportInput α}
    {oSy oSr oDs : LoopResult α} {syncs sources destinations : List α}
    (hSy : fetch_syncs api_key inp.syncPages = some oSy)
    (hSyr : oSy.result = .ok syncs)
    (hSr : fetch_sources api_key inp.sourcePages = some oSr)
    (hSrr : oSr.result = .ok sources)
    (hDs : fetch_destinations api_key inp.destPages = some oDs)
    (hDsr : oDs.result = .ok destinations) :
    export_census_data api_key output_path timestamp dirname pathExists inp =
      some ⟨.ok ⟨syncs, sources ++ destinations,
              ⟨timestamp, syncs.length, sources.length, destinations.length,
               (sources ++ destinations).length, "export_census_data.py"⟩⟩,
            (if dirname output_path ≠ "" ∧ pathExists (dirname output_path) = false then
              [FsAction.mkdir (dirname output_path)]
            else []) ++
              [FsAction.write output_path
                ⟨syncs, sources ++ destinations,
                 ⟨timestamp, syncs.length, sources.length, destinations.length,
                  (sources ++ destinations).length, "export_census_data.py"⟩⟩],
            oSy.requests ++ oSr.requests ++ oDs.requests⟩ := by
  simp only [export_census_data, hSy, hSyr, hSr, hSrr, hDs, hDsr]

/-- C2: on every successful export run, the `connections` array of the
output document is the list returned by the sources fetch concatenated
with the list returned by the destinations fetch — source records first,
no de-duplication, no re-keying — whatever the record contents. -/
theorem export_connections_concat {α : Type} (api_key output_path timestamp : String)
    (dirname : String → String) (pathExists : String → Bool) (inp : ExportInput α)
    (out : RunOutcome α) (doc : OutputDoc α) (oSr oDs : LoopResult α)
    (sources destinations : List α)
    (hSr : fetch_sources api_key inp.sourcePages = some oSr)
    (hSrr : oSr.result = .ok sources)
    (hDs : fetch_destinations api_key inp.destPages = some oDs)
    (hDsr : oDs.result = .ok destinations)
    (hrun : export_census_data api_key output_path timestamp dirname pathExists inp =
      some out)
    (hok : out.result = .ok doc) :
    doc.connections = sources ++ destinations := by
  cases hSy : fetch_syncs api_key inp.syncPages with
  | none => simp [export_census_data, hSy] at hrun
  | some oSy =>
    cases hSyr : oSy.result with
    | error e =>
      rw [export_eq_syncs_error hSy hSyr] at hrun
      obtain rfl := Option.some.inj hrun
      simp at hok
    | ok syncs =>
      rw [export_eq_ok hSy hSyr hSr hSrr hDs hDsr] at hrun
      obtain rfl := Option.some.inj hrun
      obtain rfl := Except.ok.inj hok
      rfl

/-- C3: on every successful export run, the `_metadata` counters agree
with the actual lengths: `syncCount` with the `syncs` array,
`sourceCount` and `destinationCount` with the fetched lists,
`connectionCount` with the `connections` array, and `connectionCount`
equals `sourceCount + destinationCount`. -/
theorem export_metadata_counts {α : Type} (api_key output_path timestamp : String)
    (dirname : String → String) (pathExists : String → Bool) (inp : ExportInput α)
    (out : RunOutcome α) (doc : OutputDoc α) (oSr oDs : LoopResult α)
    (sources destinations : List α)
    (hSr : fetch_sources api_key inp.sourcePages = some oSr)
    (hSrr : oSr.result = .ok sources)
    (hDs : fetch_destinations api_key inp.destPages = some oDs)
    (hDsr : oDs.result = .ok destinations)
    (hrun : export_census_data api_key output_path timestamp dirname pathExists inp =
      some out)
    (hok : out.result = .ok doc) :
    doc.metadata.syncCount = doc.syncs.length ∧
    doc.metadata.sourceCount = sources.length ∧
    doc.metadata.destinationCount = destinations.length ∧
    doc.metadata.connectionCount = doc.connections.length ∧
    doc.metadata.connectionCount =
      doc.metadata.sourceCount + doc.metadata.destinationCount := by
  cases hSy : fetch_syncs api_key inp.syncPages with
  | none => simp [export_census_data, hSy] at hrun
  | some oSy =>
    cases hSyr : oSy.result with
    | error e =>
      rw [export_eq_syncs_error hSy hSyr] at hrun
      obtain rfl := Option.some.inj hrun
      simp at hok
    | ok syncs =>
      rw [export_eq_ok hSy hSyr hSr hSrr hDs hDsr] at hrun
      obtain rfl := Option.some.inj hrun
      obtain rfl := Except.ok.inj hok
      exact ⟨rfl, rfl, rfl, rfl, by simp⟩

/-- C5: a fetch error aborts the whole run with no partial-success
output. Whenever the run's result is an error, no filesystem action was
performed (no directory created, no file written); and an error raised by
the syncs, sources or destinations fetch (each reached only when the
previous ones succeeded) makes the run produce exactly that error with an
empty action list. -/
theorem export_no_partial_output {α : Type} (api_key output_path timestamp : String)
    (dirname : String → String) (pathExists : String → Bool) (inp : ExportInput α) :
    (∀ out : RunOutcome α,
      export_census_data api_key output_path timestamp dirname pathExists inp =
        some out →
      ∀ e, out.result = .error e → out.fsActions = []) ∧
    (∀ (oSy : LoopResult α) e,
      fetch_syncs api_key inp.syncPages = some oSy → oSy.result = .error e →
      export_census_data api_key output_path timestamp dirname pathExists inp =
        some ⟨.error e, [], oSy.requests⟩) ∧
    (∀ (oSy oSr : LoopResult α) (syncs : List α) e,
      fetch_syncs api_key inp.syncPages = some oSy → oSy.result = .ok syncs →
      fetch_sources api_key inp.sourcePages = some oSr → oSr.result = .error e →
      export_census_data api_key output_path timestamp dirname pathExists inp =
        some ⟨.error e, [], oSy.requests ++ oSr.requests⟩) ∧
    (∀ (oSy oSr oDs : LoopResult α) (syncs sources : List α) e,
      fetch_syncs api_key inp.syncPages = some oSy → oSy.result = .ok syncs →
      fetch_sources api_key inp.sourcePages = some oSr → oSr.result = .ok sources →
      fetch_destinations api_key inp.destPages = some oDs → oDs.result = .error e →
      export_census_data api_key output_path timestamp dirname pathExists inp =
        some ⟨.error e, [], oSy.requests ++ oSr.requests ++ oDs.requests⟩) := by
  refine ⟨?_, fun oSy e hSy hSyr => export_eq_syncs_error hSy hSyr,
          fun oSy oSr syncs e hSy hSyr hSr hSrr =>
            export_eq_sources_error hSy hSyr hSr hSrr,
          fun oSy oSr oDs syncs sources e hSy hSyr hSr hSrr hDs hDsr =>
            export_eq_dest_error hSy hSyr hSr hSrr hDs hDsr⟩
  intro out hrun e herr
  cases hSy : fetch_syncs api_key inp.syncPages with
  | none => simp [export_census_data, hSy] at hrun
  | some oSy =>
    cases hSyr : oSy.result with
    | error e' =>
      rw [export_eq_syncs_error hSy hSyr] at hrun
      obtain rfl := Option.some.inj hrun
      rfl
    | ok syncs =>
      cases hSr : fetch_sources api_key inp.sourcePages with
      | none => simp [export_census_data, hSy, hSyr, hSr] at hrun
      | some oSr =>
        cases hSrr : oSr.result with
        | error e' =>
          rw [export_eq_sources_error hSy hSyr hSr hSrr] at hrun
          obtain rfl := Option.some.inj hrun
          rfl
        | ok sources =>
          cases hDs : fetch_destinations api_key inp.destPages with
          | none => simp [export_census_data, hSy, hSyr, hSr, hSrr, hDs] at hrun
          | some oDs =>
            cases hDsr : oDs.result with
            | error e' =>
              rw [export_eq_dest_error hSy hSyr hSr hSrr hDs hDsr] at hrun
              obtain rfl := Option.some.inj hrun
              rfl
            | ok destinations =>
              rw [export_eq_ok hSy hSyr hSr hSrr hDs hDsr] at hrun
              obtain rfl := Option.some.inj hrun
              simp at herr

/-- Environment for the witnesses: `os.path.dirname` returning `"data"`,
`os.path.exists` returning `False`. -/
def dirnameData : String → String := fun _ => "data"

/-- See `dirnameData`. -/
def pathExistsNo : String → Bool := fun _ => false

/-- A successful export input: one syncs page, one sources page, two
destinations pages. -/
def inpOk : ExportInput Nat := ⟨[pageOk2], [pageOk2], [pageOk1, pageOk2]⟩

/-- The document `export_census_data` builds from `inpOk`. -/
def docOk : OutputDoc Nat := ⟨[3], [3, 1, 2, 3], ⟨"T", 1, 1, 3, 4, "export_census_data.py"⟩⟩

/-- The run outcome `export_census_data` produces from `inpOk`. -/
def outOk : RunOutcome Nat :=
  ⟨.ok docOk,
   [FsAction.mkdir "data", FsAction.write "data/census.json" docOk],
   [⟨CENSUS_API_BASE ++ "/" ++ "syncs", none⟩,
    ⟨CENSUS_API_BASE ++ "/" ++ "sources", none⟩,
    ⟨CENSUS_API_BASE ++ "/" ++ "destinations", none⟩,
    ⟨"https://app.getcensus.com/api/v1/syncs?page=2", none⟩]⟩

/-- Witness for C2: run on `inpOk`; `connections = [3] ++ [1, 2, 3]`. -/
theorem export_connections_concat_witness :
    (export_census_data "key" "data/census.json" "T" dirnameData pathExistsNo inpOk =
      some outOk) ∧
    (outOk.result = .ok docOk) ∧
    docOk.connections = [3] ++ [1, 2, 3] :=
  ⟨rfl, rfl,
   export_connections_concat "key" "data/census.json" "T" dirnameData pathExistsNo
     inpOk outOk docOk _ _ [3] [1, 2, 3] rfl rfl rfl rfl rfl rfl⟩

/-- Witness for C3: the counters of the `inpOk` run. -/
theorem export_metadata_counts_witness :
    (export_census_data "key" "data/census.json" "T" dirnameData pathExistsNo inpOk =
      some outOk) ∧
    (docOk.metadata.syncCount = docOk.syncs.length ∧
     docOk.metadata.sourceCount = ([3] : List Nat).length ∧
     docOk.metadata.destinationCount = ([1, 2, 3] : List Nat).length ∧
     docOk.metadata.connectionCount = docOk.connections.length ∧
     docOk.metadata.connectionCount =
       docOk.metadata.sourceCount + docOk.metadata.destinationCount) :=
  ⟨rfl,
   export_metadata_counts "key" "data/census.json" "T" dirnameData pathExistsNo
     inpOk outOk docOk _ _ [3] [1, 2, 3] rfl rfl rfl rfl rfl rfl⟩

/-- Witness for C5: the syncs fetch hits a 401, the run aborts with that
error and performs no filesystem action. -/
theorem export_no_partial_output_witness :
    (fetch_syncs "key" ([page401] : List (Response Nat)) =
      some ⟨.error .authFailed, [⟨CENSUS_API_BASE ++ "/" ++ "syncs", none⟩]⟩) ∧
    export_census_data "key" "data/census.json" "T" dirnameData pathExistsNo
        (⟨[page401], [pageOk2], [pageOk2]⟩ : ExportInput Nat) =
      some ⟨.error .authFailed, [], [⟨CENSUS_API_BASE ++ "/" ++ "syncs", none⟩]⟩ :=
  ⟨rfl,
   (export_no_partial_output "key" "data/census.json" "T" dirnameData pathExistsNo
       (⟨[page401], [pageOk2], [pageOk2]⟩ : ExportInput Nat)).2.1
     ⟨.error .authFailed, [⟨CENSUS_API_BASE ++ "/" ++ "syncs", none⟩]⟩
     .authFailed rfl rfl⟩

/-- C9: when the API key is absent both from the `--api-key` flag and the
`CENSUS_API_KEY` environment variable, `main` prints the help message and
exits with code 1, issuing no request and performing no filesystem
action, whatever the rest of the environment. -/
theorem main_missing_api_key {α : Type} (outputFlag : Option String)
    (timestamp : String) (dirname : String → String) (pathExists : String → Bool)
    (inp : ExportInput α) :
    main none none outputFlag timestamp dirname pathExists inp =
      some ⟨1, true, [], []⟩ := rfl

end Census
